/-
Verification of the planetary gear-train tools (slvsx-cli) against their
natural-language specification.

The Python sources under `tools/` are shallowly embedded below.  Pure
arithmetic on phases and tooth counts is embedded over `ℚ` (Python's `%`
on floats is `x - m * ⌊x / m⌋`, embedded as `qmod`); geometry that uses
`math.sqrt`, `math.sin`, `math.cos`, `math.acos` and `math.atan2` is
embedded over `ℝ`.  Python code that can raise an exception is embedded
with `Except`.
-/
import Mathlib

namespace GearSpec

/-- Python's `%` on rationals/floats with a positive modulus:
`x % m = x - m * floor (x / m)`. -/
def qmod (x m : ℚ) : ℚ := x - m * ⌊x / m⌋

theorem qmod_add_mul_int (x m : ℚ) (k : ℤ) (hm : m ≠ 0) :
    qmod (x + m * k) m = qmod x m := by
  unfold qmod
  have h : (x + m * k) / m = x / m + k := by field_simp; ring
  rw [h, Int.floor_add_int]
  push_cast
  ring

/-- `tools/exhaustive_phase_search.py`, `calculate_gear_phase` (lines 11-16):
phase contribution for `gear2` meshing with `gear1` at relative angle
`angle_deg`, namely `(angle * teeth1/teeth2 + (360/teeth2)/2) % 360`. -/
def calculate_gear_phase (teeth1 teeth2 : ℕ) (angle_deg : ℚ) : ℚ :=
  qmod (angle_deg * ((teeth1 : ℚ) / (teeth2 : ℚ)) + (360 / (teeth2 : ℚ)) / 2) 360

/-- `tools/exhaustive_phase_search.py`, line 64 (same pattern as
`tools/find_valid_double_planetary.py` line 174): the phase propagated to the
downstream gear is `(upstream_phase + calculate_gear_phase(t1, t2, angle)) % 360`. -/
def propagate_phase (upstream_phase : ℚ) (teeth1 teeth2 : ℕ) (angle_deg : ℚ) : ℚ :=
  qmod (upstream_phase + calculate_gear_phase teeth1 teeth2 angle_deg) 360

/-- Modelled from the spec: the §4.4 transfer rule
`phase(Y) = (phase(X) * (teeth(X)/teeth(Y)) + angular_contribution + 180/teeth(Y)) mod 360`,
with the upstream phase scaled by the tooth ratio and the angular contribution
being the relative angle scaled by the same ratio. -/
def spec_transfer_rule (upstream_phase : ℚ) (teeth1 teeth2 : ℕ) (angle_deg : ℚ) : ℚ :=
  qmod (upstream_phase * ((teeth1 : ℚ) / (teeth2 : ℚ)) +
    angle_deg * ((teeth1 : ℚ) / (teeth2 : ℚ)) + 180 / (teeth2 : ℚ)) 360

/-- C1 counterexample: propagating phase 90° from a 24-tooth gear to a
12-tooth gear at relative angle 0° gives 105° in the code (upstream phase
enters unscaled), while the spec's transfer rule gives 195° (upstream phase
scaled by the tooth ratio 24/12 = 2). -/
theorem propagate_phase_ne_spec_transfer :
    propagate_phase 90 24 12 0 = 105 ∧ spec_transfer_rule 90 24 12 0 = 195 ∧
      (105 : ℚ) ≠ 195 := by
  refine ⟨?_, ?_, by norm_num⟩ <;>
    · show (_ : ℚ) - _ = _
      norm_num [calculate_gear_phase, qmod]

/-- C1 (amended): for every directed mesh edge the code's propagated phase is
`(phase(X) + Δangle * (teeth(X)/teeth(Y)) + 180/teeth(Y)) mod 360`: the
angular contribution is scaled by the tooth ratio but the upstream phase
enters with coefficient 1, not scaled by the tooth ratio. -/
theorem propagate_phase_eq (upstream_phase : ℚ) (teeth1 teeth2 : ℕ) (angle_deg : ℚ) :
    propagate_phase upstream_phase teeth1 teeth2 angle_deg =
      qmod (upstream_phase + angle_deg * ((teeth1 : ℚ) / (teeth2 : ℚ)) +
        180 / (teeth2 : ℚ)) 360 := by
  unfold propagate_phase calculate_gear_phase qmod
  have h360 : (360 : ℚ) ≠ 0 := by norm_num
  have hhalf : (360 / (teeth2 : ℚ)) / 2 = 180 / (teeth2 : ℚ) := by
    rw [div_div, mul_comm, ← div_div]
    norm_num
  rw [hhalf]
  set y : ℚ := angle_deg * ((teeth1 : ℚ) / (teeth2 : ℚ)) + 180 / (teeth2 : ℚ) with hy
  have key : qmod (upstream_phase + (y - 360 * ⌊y / 360⌋)) 360 = qmod (upstream_phase + y) 360 := by
    have : upstream_phase + (y - 360 * ⌊y / 360⌋) =
        (upstream_phase + y) + 360 * (-⌊y / 360⌋ : ℤ) := by push_cast; ring
    rw [this, qmod_add_mul_int _ _ _ h360]
  simpa [qmod, add_assoc] using key

/-! ## Alignment validator (`tools/analyze_phase_modulo.py`) -/

/-- Largest element of a list of rationals (Python `max`; meaningful for
nonempty lists, which is the only way the embedded code calls it). -/
def listMax (l : List ℚ) : ℚ := l.foldl max (l.headD 0)

/-- Smallest element of a list of rationals (Python `min`). -/
def listMin (l : List ℚ) : ℚ := l.foldl min (l.headD 0)

/-- `tools/analyze_phase_modulo.py` lines 21-23: normalize a phase demand
first to `[0, 360)` and then into the tooth period `360/num_teeth`. -/
def normalize_demand (num_teeth : ℕ) (phase : ℚ) : ℚ :=
  qmod (qmod phase 360) (360 / (num_teeth : ℚ))

def normalized_demands (phase_demands : List ℚ) (num_teeth : ℕ) : List ℚ :=
  phase_demands.map (normalize_demand num_teeth)

/-- `tools/analyze_phase_modulo.py` lines 32-34:
`variance = max(normalized) - min(normalized)`. -/
def demand_variance (phase_demands : List ℚ) (num_teeth : ℕ) : ℚ :=
  listMax (normalized_demands phase_demands num_teeth) -
    listMin (normalized_demands phase_demands num_teeth)

/-- `tools/analyze_phase_modulo.py` line 40: `tolerance = tooth_period * 0.1`. -/
def tooth_tolerance (num_teeth : ℕ) : ℚ := (360 / (num_teeth : ℚ)) * (1 / 10)

/-- Insert into a sorted list, ascending. -/
def insertSorted (x : ℚ) : List ℚ → List ℚ
  | [] => [x]
  | y :: ys => if x ≤ y then x :: y :: ys else y :: insertSorted x ys

/-- Python's `sorted` on rationals, ascending (insertion sort). -/
def sortList : List ℚ → List ℚ
  | [] => []
  | x :: xs => insertSorted x (sortList xs)

/-- `tools/analyze_phase_modulo.py` lines 52-57: circular gaps between
consecutive sorted normalized demands, `(sorted[(i+1) % n] - sorted[i]) % T`. -/
def demand_intervals (phase_demands : List ℚ) (num_teeth : ℕ) : List ℚ :=
  let sorted_norm := sortList (normalized_demands phase_demands num_teeth)
  (List.range sorted_norm.length).map (fun i =>
    qmod (sorted_norm.getD ((i + 1) % sorted_norm.length) 0 - sorted_norm.getD i 0)
      (360 / (num_teeth : ℚ)))

/-- `tools/analyze_phase_modulo.py` lines 62-63: maximum absolute deviation of
the intervals from their average. -/
def interval_variance (phase_demands : List ℚ) (num_teeth : ℕ) : ℚ :=
  let intervals := demand_intervals phase_demands num_teeth
  let avg_interval := intervals.sum / (intervals.length : ℚ)
  listMax (intervals.map (fun i => |i - avg_interval|))

/-- `tools/analyze_phase_modulo.py`, `analyze_phase_equivalence` (lines 7-69),
return value only (prints dropped).  `none` models the Python exceptions on a
zero tooth count (`ZeroDivisionError`) or an empty demand list (`min`/`max`
raise `ValueError`). -/
def analyze_phase_equivalence (phase_demands : List ℚ) (num_teeth : ℕ) : Option Bool :=
  if num_teeth = 0 ∨ phase_demands = [] then none
  else if demand_variance phase_demands num_teeth < tooth_tolerance num_teeth then
    some true
  else if phase_demands.length = 6 then
    if interval_variance phase_demands num_teeth < tooth_tolerance num_teeth then
      some true
    else some false
  else some false

/-- C6 counterexample: with the 84-tooth ring, the demand list
`[1,1,1,1,1,1]` passes the primary strict-alignment check while
`[0, 5/7, 10/7, 15/7, 20/7, 25/7]` fails it (its demands only satisfy the
secondary regular-spacing check), yet `analyze_phase_equivalence` returns the
identical value `True` for both: the caller cannot tell the two checks apart
from the single returned boolean. -/
theorem analyze_phase_equivalence_collapsed :
    analyze_phase_equivalence [1, 1, 1, 1, 1, 1] 84 = some true ∧
    analyze_phase_equivalence [0, 5/7, 10/7, 15/7, 20/7, 25/7] 84 = some true ∧
    demand_variance [1, 1, 1, 1, 1, 1] 84 < tooth_tolerance 84 ∧
    ¬ demand_variance [0, 5/7, 10/7, 15/7, 20/7, 25/7] 84 < tooth_tolerance 84 := by
  have h1 : demand_variance [1, 1, 1, 1, 1, 1] 84 < tooth_tolerance 84 := by
    norm_num [demand_variance, normalized_demands, normalize_demand, tooth_tolerance,
      listMax, listMin, qmod]
  have h2 : ¬ demand_variance [0, 5/7, 10/7, 15/7, 20/7, 25/7] 84 < tooth_tolerance 84 := by
    norm_num [demand_variance, normalized_demands, normalize_demand, tooth_tolerance,
      listMax, listMin, qmod]
  have h3 : interval_variance [0, 5/7, 10/7, 15/7, 20/7, 25/7] 84 < tooth_tolerance 84 := by
    norm_num [interval_variance, demand_intervals, normalized_demands, normalize_demand,
      tooth_tolerance, sortList, insertSorted, listMax, listMin, qmod, List.range_succ,
      List.getD]
  refine ⟨?_, ?_, h1, h2⟩
  · unfold analyze_phase_equivalence
    rw [if_neg (by simp), if_pos h1]
  · unfold analyze_phase_equivalence
    rw [if_neg (by simp), if_neg h2, if_pos (by simp), if_pos h3]

/-- C6 (amended): the validator returns the single boolean
"primary variance check passed, or the list has exactly 6 demands and the
secondary regular-spacing check passed"; the two checks are collapsed into
this one value rather than reported as distinct outcomes. -/
theorem analyze_phase_equivalence_true_iff (phase_demands : List ℚ) (num_teeth : ℕ)
    (ht : num_teeth ≠ 0) (hd : phase_demands ≠ []) :
    analyze_phase_equivalence phase_demands num_teeth = some true ↔
      (demand_variance phase_demands num_teeth < tooth_tolerance num_teeth ∨
        (phase_demands.length = 6 ∧
          interval_variance phase_demands num_teeth < tooth_tolerance num_teeth)) := by
  unfold analyze_phase_equivalence
  rw [if_neg (by simp [ht, hd])]
  split_ifs with h1 h2 h3 <;> simp_all

theorem analyze_phase_equivalence_true_iff_witness :
    (84 : ℕ) ≠ 0 ∧ ([(1 : ℚ), 1, 1, 1, 1, 1] ≠ []) ∧
      (analyze_phase_equivalence [1, 1, 1, 1, 1, 1] 84 = some true ↔
        (demand_variance [1, 1, 1, 1, 1, 1] 84 < tooth_tolerance 84 ∨
          (([(1 : ℚ), 1, 1, 1, 1, 1]).length = 6 ∧
            interval_variance [1, 1, 1, 1, 1, 1] 84 < tooth_tolerance 84))) :=
  ⟨by norm_num, by simp,
    analyze_phase_equivalence_true_iff [1, 1, 1, 1, 1, 1] 84 (by norm_num) (by simp)⟩

/-- C7: adding a single integer multiple of the tooth period `360/teeth` to
every demand leaves the validator's variance (max minus min of the demands
normalized modulo the tooth period) unchanged. -/
theorem demand_variance_shift_invariant (phase_demands : List ℚ) (num_teeth : ℕ)
    (k : ℤ) (ht : 0 < num_teeth) :
    demand_variance (phase_demands.map (fun p => p + (k : ℚ) * (360 / (num_teeth : ℚ))))
        num_teeth =
      demand_variance phase_demands num_teeth := by
  have htq : (num_teeth : ℚ) ≠ 0 := Nat.cast_ne_zero.mpr ht.ne'
  have hT : (360 : ℚ) / (num_teeth : ℚ) ≠ 0 := div_ne_zero (by norm_num) htq
  have hnorm : ∀ p : ℚ, normalize_demand num_teeth p = qmod p (360 / (num_teeth : ℚ)) := by
    intro p
    unfold normalize_demand
    have h360 : qmod p 360 = p + (360 / (num_teeth : ℚ)) * ((-(num_teeth : ℤ) * ⌊p / 360⌋ : ℤ)) := by
      unfold qmod
      field_simp
      ring
    rw [h360, qmod_add_mul_int _ _ _ hT]
  have hptwise : ∀ p : ℚ,
      normalize_demand num_teeth (p + (k : ℚ) * (360 / (num_teeth : ℚ))) =
        normalize_demand num_teeth p := by
    intro p
    rw [hnorm, hnorm]
    have : p + (k : ℚ) * (360 / (num_teeth : ℚ)) = p + (360 / (num_teeth : ℚ)) * (k : ℤ) := by
      ring
    rw [this, qmod_add_mul_int _ _ _ hT]
  unfold demand_variance normalized_demands
  rw [List.map_map]
  congr 2 <;> exact List.map_congr_left fun p _ => hptwise p

theorem demand_variance_shift_invariant_witness :
    0 < 72 ∧
      demand_variance ([(10 : ℚ), 50].map (fun p => p + (3 : ℤ) * (360 / (72 : ℚ)))) 72 =
        demand_variance [10, 50] 72 :=
  ⟨by norm_num, demand_variance_shift_invariant [10, 50] 72 3 (by norm_num)⟩

/-! ## Gear geometry model (`tools/detect_meshing_overlaps.py`) -/

/-- A gear as consumed by `tools/detect_meshing_overlaps.py`: tooth count,
module (mm per tooth) and the internal (ring-style) flag.  Center, phase and
pressure angle play no role in `theoretical_center_distance`. -/
structure Gear where
  teeth : ℕ
  module : ℚ
  internal : Bool

/-- `tools/detect_meshing_overlaps.py` lines 29-31:
`pitch_radius = teeth * module / 2`. -/
def pitch_radius (g : Gear) : ℚ := (g.teeth : ℚ) * g.module / 2

/-- `tools/detect_meshing_overlaps.py`, `theoretical_center_distance`
(lines 55-68). -/
def theoretical_center_distance (g1 g2 : Gear) : ℚ :=
  if g1.internal = true ∧ g2.internal = false then
    |pitch_radius g1 - pitch_radius g2|
  else if g1.internal = false ∧ g2.internal = true then
    |pitch_radius g2 - pitch_radius g1|
  else pitch_radius g1 + pitch_radius g2

/-- C8: for gears with positive teeth and module,
`theoretical_center_distance` equals `|pitch1 - pitch2|` when exactly one of
the pair is internal and `pitch1 + pitch2` otherwise, and it is symmetric in
its arguments. -/
theorem theoretical_center_distance_cases_and_symm (g1 g2 : Gear)
    (ht1 : 0 < g1.teeth) (ht2 : 0 < g2.teeth)
    (hm1 : 0 < g1.module) (hm2 : 0 < g2.module) :
    (theoretical_center_distance g1 g2 =
      if g1.internal ≠ g2.internal then |pitch_radius g1 - pitch_radius g2|
      else pitch_radius g1 + pitch_radius g2) ∧
    theoretical_center_distance g1 g2 = theoretical_center_distance g2 g1 := by
  rcases g1 with ⟨t1, m1, i1⟩
  rcases g2 with ⟨t2, m2, i2⟩
  cases i1 <;> cases i2 <;>
    simp [theoretical_center_distance, abs_sub_comm, add_comm]

theorem theoretical_center_distance_cases_and_symm_witness :
    0 < (24 : ℕ) ∧ 0 < (72 : ℕ) ∧ 0 < (2 : ℚ) ∧
      ((theoretical_center_distance ⟨24, 2, false⟩ ⟨72, 2, true⟩ =
        if (false : Bool) ≠ (true : Bool) then
          |pitch_radius ⟨24, 2, false⟩ - pitch_radius ⟨72, 2, true⟩|
        else pitch_radius ⟨24, 2, false⟩ + pitch_radius ⟨72, 2, true⟩) ∧
      theoretical_center_distance ⟨24, 2, false⟩ ⟨72, 2, true⟩ =
        theoretical_center_distance ⟨72, 2, true⟩ ⟨24, 2, false⟩) :=
  ⟨by norm_num, by norm_num, by norm_num,
    theoretical_center_distance_cases_and_symm ⟨24, 2, false⟩ ⟨72, 2, true⟩
      (by norm_num) (by norm_num) (by norm_num) (by norm_num)⟩

/-! ## Phase-demand aggregation (`tools/find_phase_compatible_triangular.py`,
`tools/find_valid_double_planetary.py`) -/

/-- Python's `%` on reals with a positive modulus. -/
noncomputable def rmod (x m : ℝ) : ℝ := x - m * ⌊x / m⌋

/-- Python's `math.atan2 y x`: the argument of the complex number `x + y*i`,
in `(-π, π]`. -/
noncomputable def atan2 (y x : ℝ) : ℝ := Complex.arg ⟨x, y⟩

/-- `tools/find_phase_compatible_triangular.py`, `circular_mean`
(lines 74-81): `atan2` of the summed unit vectors at each demand angle,
converted back to degrees and reduced mod 360. -/
noncomputable def circular_mean (angles : List ℝ) : ℝ :=
  let sin_sum := (angles.map (fun a => Real.sin (a * Real.pi / 180))).sum
  let cos_sum := (angles.map (fun a => Real.cos (a * Real.pi / 180))).sum
  rmod (atan2 sin_sum cos_sum * 180 / Real.pi) 360

/-- `tools/find_valid_double_planetary.py` line 202: the ring phase assigned
in the emitted document is the arithmetic mean
`sum(ring_phase_demands) / len(ring_phase_demands)`. -/
noncomputable def avg_ring_phase (ring_phase_demands : List ℝ) : ℝ :=
  ring_phase_demands.sum / (ring_phase_demands.length : ℝ)

theorem sin_two_pi_sub (x : ℝ) : Real.sin (2 * Real.pi - x) = -Real.sin x := by
  rw [Real.sin_sub, Real.sin_two_pi, Real.cos_two_pi]
  ring

theorem cos_two_pi_sub (x : ℝ) : Real.cos (2 * Real.pi - x) = Real.cos x := by
  rw [Real.cos_sub, Real.sin_two_pi, Real.cos_two_pi]
  ring

/-- C2 counterexample: the ring gear's reconciled phase in
`find_valid_double_planetary.py` is the arithmetic mean of the demands, not
the circular mean: for the demand list `[350°, 10°]` the code assigns 180°
while the circular mean is 0°. -/
theorem avg_ring_phase_ne_circular_mean :
    avg_ring_phase [350, 10] = 180 ∧ circular_mean [350, 10] = 0 ∧
      (180 : ℝ) ≠ 0 := by
  refine ⟨by norm_num [avg_ring_phase], ?_, by norm_num⟩
  unfold circular_mean
  have hpi := Real.pi_pos
  have h350 : (350 : ℝ) * Real.pi / 180 = 2 * Real.pi - Real.pi / 18 := by ring
  have h10 : (10 : ℝ) * Real.pi / 180 = Real.pi / 18 := by ring
  have hsin : Real.sin (350 * Real.pi / 180) + Real.sin (10 * Real.pi / 180) = 0 := by
    rw [h350, h10, sin_two_pi_sub]
    ring
  have hcospos : 0 < Real.cos (Real.pi / 18) := by
    apply Real.cos_pos_of_mem_Ioo
    constructor <;> nlinarith
  have hcos : Real.cos (350 * Real.pi / 180) + Real.cos (10 * Real.pi / 180) =
      2 * Real.cos (Real.pi / 18) := by
    rw [h350, h10, cos_two_pi_sub]
    ring
  simp only [List.map_cons, List.map_nil, List.sum_cons, List.sum_nil, add_zero]
  rw [hsin, hcos]
  have harg : atan2 0 (2 * Real.cos (Real.pi / 18)) = 0 := by
    unfold atan2
    have hc : (⟨2 * Real.cos (Real.pi / 18), 0⟩ : ℂ) =
        ((2 * Real.cos (Real.pi / 18) : ℝ) : ℂ) := rfl
    rw [hc]
    exact Complex.arg_ofReal_of_nonneg (by positivity)
  rw [harg]
  unfold rmod
  norm_num

/-- C2 (amended): both aggregations of multi-path phase demands in the code —
the circular mean used for an outer planet's two demands, and the arithmetic
mean used for the ring's demands — are invariant under any permutation of the
demand list. -/
theorem phase_mean_perm_invariant (l1 l2 : List ℝ) (h : List.Perm l1 l2) :
    circular_mean l1 = circular_mean l2 ∧ avg_ring_phase l1 = avg_ring_phase l2 := by
  constructor
  · unfold circular_mean
    rw [(h.map _).sum_eq, (h.map _).sum_eq]
  · unfold avg_ring_phase
    rw [h.sum_eq, h.length_eq]

theorem phase_mean_perm_invariant_witness :
    circular_mean [10, 20] = circular_mean [20, 10] ∧
      avg_ring_phase [10, 20] = avg_ring_phase [20, 10] :=
  phase_mean_perm_invariant [10, 20] [20, 10] (List.Perm.swap 20 10 [])

/-! ## Triangular-meshing position construction
(`tools/calculate_triangular_positions.py`) -/

/-- Euclidean distance between two points of the plane (Python
`math.sqrt((x1-x2)**2 + (y1-y2)**2)`). -/
noncomputable def pdist (a b : ℝ × ℝ) : ℝ :=
  Real.sqrt ((a.1 - b.1) ^ 2 + (a.2 - b.2) ^ 2)

/-- `tools/calculate_triangular_positions.py` line 38: the distance from the
first inner planet to the midpoint of the two inner planets (half the
inner-to-inner chord). -/
noncomputable def dist_to_mid (p1 p2 : ℝ × ℝ) : ℝ :=
  Real.sqrt ((p1.1 - (p1.1 + p2.1) / 2) ^ 2 + (p1.2 - (p1.2 + p2.2) / 2) ^ 2)

/-- `tools/calculate_triangular_positions.py` lines 33-59: outer-planet
center for two adjacent inner-planet centers `p1`, `p2`: midpoint, then the
perpendicular offset `height = sqrt(mesh_distance² - dist_to_mid²)` projected
along the radial direction through the midpoint (`fallback_dir`, the angular
bisector direction in the code, is used when the midpoint is the origin). -/
noncomputable def triangular_outer_center (p1 p2 : ℝ × ℝ) (mesh_distance : ℝ)
    (fallback_dir : ℝ × ℝ) : ℝ × ℝ :=
  let mid_x := (p1.1 + p2.1) / 2
  let mid_y := (p1.2 + p2.2) / 2
  let height := Real.sqrt (mesh_distance ^ 2 - dist_to_mid p1 p2 ^ 2)
  let mid_dist := Real.sqrt (mid_x ^ 2 + mid_y ^ 2)
  let dir := if mid_dist > 0 then (mid_x / mid_dist, mid_y / mid_dist) else fallback_dir
  (mid_x + dir.1 * height, mid_y + dir.2 * height)

/-- C4: whenever the two adjacent inner planets lie on a common circle about
the origin with their midpoint distinct from the origin, and the mesh
distance strictly exceeds half the inner-to-inner chord, the constructed
outer-planet center is at distance exactly `mesh_distance` from both inner
centers — in particular within the 0.01 mm verification tolerance. -/
theorem triangular_outer_center_meshes (p1 p2 : ℝ × ℝ) (mesh_distance : ℝ)
    (fallback_dir : ℝ × ℝ)
    (hcirc : p1.1 ^ 2 + p1.2 ^ 2 = p2.1 ^ 2 + p2.2 ^ 2)
    (hmid : ((p1.1 + p2.1) / 2, (p1.2 + p2.2) / 2) ≠ ((0 : ℝ), (0 : ℝ)))
    (hmesh : dist_to_mid p1 p2 < mesh_distance) :
    pdist (triangular_outer_center p1 p2 mesh_distance fallback_dir) p1 =
        mesh_distance ∧
    pdist (triangular_outer_center p1 p2 mesh_distance fallback_dir) p2 =
        mesh_distance ∧
    |pdist (triangular_outer_center p1 p2 mesh_distance fallback_dir) p1 -
        mesh_distance| ≤ 1 / 100 ∧
    |pdist (triangular_outer_center p1 p2 mesh_distance fallback_dir) p2 -
        mesh_distance| ≤ 1 / 100 := by
  obtain ⟨a, b⟩ := p1
  obtain ⟨c, d⟩ := p2
  simp only at hcirc hmid ⊢
  set mx : ℝ := (a + c) / 2 with hmx
  set my : ℝ := (b + d) / 2 with hmy
  have hmxy : mx ^ 2 + my ^ 2 > 0 := by
    rcases (not_and_or.mp (fun hab => hmid (Prod.ext hab.1 hab.2))) with h | h
    · have := pow_two_pos_of_ne_zero h
      nlinarith [sq_nonneg my]
    · have := pow_two_pos_of_ne_zero h
      nlinarith [sq_nonneg mx]
  set n : ℝ := Real.sqrt (mx ^ 2 + my ^ 2) with hn
  have hnpos : 0 < n := Real.sqrt_pos.mpr hmxy
  have hn2 : n ^ 2 = mx ^ 2 + my ^ 2 := Real.sq_sqrt hmxy.le
  set D : ℝ := dist_to_mid (a, b) (c, d) with hD
  have hD0 : 0 ≤ D := Real.sqrt_nonneg _
  have hD2 : D ^ 2 = (a - mx) ^ 2 + (b - my) ^ 2 := by
    rw [hD]
    exact Real.sq_sqrt (by positivity)
  have hmesh0 : 0 ≤ mesh_distance := hD0.trans hmesh.le
  have hdiff : 0 ≤ mesh_distance ^ 2 - D ^ 2 := by nlinarith
  set h : ℝ := Real.sqrt (mesh_distance ^ 2 - D ^ 2) with hh
  have hh2 : h ^ 2 = mesh_distance ^ 2 - D ^ 2 := Real.sq_sqrt hdiff
  have houter : triangular_outer_center (a, b) (c, d) mesh_distance fallback_dir =
      (mx + mx / n * h, my + my / n * h) := by
    unfold triangular_outer_center
    simp only [← hmx, ← hmy, ← hn, ← hD, ← hh, if_pos hnpos]
  have main : ∀ x y : ℝ, (mx - x) * mx + (my - y) * my = 0 →
      (x - mx) ^ 2 + (y - my) ^ 2 = D ^ 2 →
      pdist (mx + mx / n * h, my + my / n * h) (x, y) = mesh_distance := by
    intro x y horto hchord
    unfold pdist
    have hinside : (mx + mx / n * h - x) ^ 2 + (my + my / n * h - y) ^ 2 =
        mesh_distance ^ 2 := by
      have hne : n ≠ 0 := hnpos.ne'
      field_simp
      linear_combination n ^ 2 * hchord - h ^ 2 * hn2 + n ^ 2 * hh2 + 2 * n * h * horto
    rw [hinside]
    exact Real.sqrt_sq hmesh0
  have horto1 : (mx - a) * mx + (my - b) * my = 0 := by
    rw [hmx, hmy]
    linear_combination (-1 / 4 : ℝ) * hcirc
  have horto2 : (mx - c) * mx + (my - d) * my = 0 := by
    rw [hmx, hmy]
    linear_combination (1 / 4 : ℝ) * hcirc
  have hchord1 : (a - mx) ^ 2 + (b - my) ^ 2 = D ^ 2 := hD2.symm
  have hchord2 : (c - mx) ^ 2 + (d - my) ^ 2 = D ^ 2 := by
    rw [hD2, hmx, hmy]
    ring
  have e1 := main a b horto1 hchord1
  have e2 := main c d horto2 hchord2
  rw [houter]
  refine ⟨e1, e2, ?_, ?_⟩ <;> simp [e1, e2]

/-- C4 witness: for the concrete inner-planet centers `(5,0)` and `(3,4)` on
the circle of radius 5 and mesh distance 13, the constructed outer center is
at distance exactly 13 from both. -/
theorem triangular_outer_center_meshes_witness :
    ((5 : ℝ) ^ 2 + (0 : ℝ) ^ 2 = (3 : ℝ) ^ 2 + (4 : ℝ) ^ 2) ∧
    ((((5 : ℝ) + 3) / 2, ((0 : ℝ) + 4) / 2) ≠ ((0 : ℝ), (0 : ℝ))) ∧
    (dist_to_mid (5, 0) (3, 4) < 13) ∧
    (pdist (triangular_outer_center (5, 0) (3, 4) 13 (0, 0)) (5, 0) = 13 ∧
      pdist (triangular_outer_center (5, 0) (3, 4) 13 (0, 0)) (3, 4) = 13 ∧
      |pdist (triangular_outer_center (5, 0) (3, 4) 13 (0, 0)) (5, 0) - 13| ≤ 1 / 100 ∧
      |pdist (triangular_outer_center (5, 0) (3, 4) 13 (0, 0)) (3, 4) - 13| ≤ 1 / 100) := by
  have hm : dist_to_mid ((5 : ℝ), (0 : ℝ)) (3, 4) < 13 := by
    unfold dist_to_mid
    have h5 : Real.sqrt 5 < 13 := (Real.sqrt_lt' (by norm_num)).mpr (by norm_num)
    calc Real.sqrt ((5 - (5 + 3) / 2) ^ 2 + (0 - (0 + 4) / 2) ^ 2)
        = Real.sqrt 5 := by norm_num
      _ < 13 := h5
  exact ⟨by norm_num, by norm_num, hm,
    triangular_outer_center_meshes (5, 0) (3, 4) 13 (0, 0) (by norm_num) (by norm_num) hm⟩

/-! ## Triangular geometry checks and the position-solver failure mode
(`tools/find_valid_triangular.py`, `tools/calculate_triangular_positions.py`) -/

/-- `tools/find_valid_triangular.py` line 22: inner-to-outer mesh distance
`(I + O) * module / 2`. -/
noncomputable def triangular_mesh_distance (I O : ℕ) (module : ℝ) : ℝ :=
  ((I : ℝ) + (O : ℝ)) * module / 2

/-- `tools/find_valid_triangular.py` lines 15-26: half the chord between
adjacent inner planets at 60° spacing,
`(2 * inner_radius * sin(π/6)) / 2`. -/
noncomputable def triangular_half_base (S I : ℕ) (module : ℝ) : ℝ :=
  2 * (((S : ℝ) + (I : ℝ)) * module / 2) * Real.sin (Real.pi / 6) / 2

open Classical in
/-- `tools/find_valid_triangular.py`, `check_triangular_geometry`
(lines 9-56): returns the tuple
`(valid, inner_radius, outer_radius_actual, outer_radius_for_ring,
min_sun_clearance)`, with the early `(False, 0, 0, 0, 0)` result when
`mesh_distance <= half_base`. -/
noncomputable def check_triangular_geometry (S I O R : ℕ) (module : ℝ) :
    Bool × ℝ × ℝ × ℝ × ℝ :=
  let inner_radius := ((S : ℝ) + (I : ℝ)) * module / 2
  let mesh_distance := triangular_mesh_distance I O module
  let half_base := triangular_half_base S I module
  if mesh_distance ≤ half_base then (false, 0, 0, 0, 0)
  else
    let h := Real.sqrt (mesh_distance ^ 2 - half_base ^ 2)
    let mid_radius := inner_radius * Real.cos (Real.pi / 6)
    let outer_radius_actual := mid_radius + h
    let outer_radius_for_ring := ((R : ℝ) - (O : ℝ)) * module / 2
    let min_sun_clearance := ((S : ℝ) * module / 2 + module) + ((O : ℝ) * module / 2 + module)
    let ring_error := |outer_radius_actual - outer_radius_for_ring|
    let valid := decide (ring_error < 2) && decide (outer_radius_actual > min_sun_clearance)
    (valid, inner_radius, outer_radius_actual, outer_radius_for_ring, min_sun_clearance)

/-- `tools/calculate_triangular_positions.py` lines 16-20: inner planet `i`
at angle `i * 60°` on the orbit circle of radius `(S + I) * module / 2`. -/
noncomputable def inner_position (S I : ℕ) (module : ℝ) (i : ℕ) : ℝ × ℝ :=
  let r := ((S : ℝ) + (I : ℝ)) * module / 2
  let angle := (i : ℝ) * 60 * Real.pi / 180
  (r * Real.cos angle, r * Real.sin angle)

/-- The Python `ValueError` raised by `math.sqrt` on a negative argument. -/
def sqrtDomainError : String := "math domain error"

open Classical in
/-- `tools/calculate_triangular_positions.py`, one iteration of the loop in
`calculate_positions` (lines 28-60): outer planet `i` between inner planets
`i` and `(i+1) % 6`.  `Except.error` models the uncaught `ValueError` raised
by `math.sqrt` at line 43 when `mesh_distance² - dist_to_mid² < 0`. -/
noncomputable def outer_position (S I O : ℕ) (module : ℝ) (i : ℕ) :
    Except String (ℝ × ℝ) :=
  let inner1 := inner_position S I module i
  let inner2 := inner_position S I module ((i + 1) % 6)
  let mid_x := (inner1.1 + inner2.1) / 2
  let mid_y := (inner1.2 + inner2.2) / 2
  let dtm := Real.sqrt ((inner1.1 - mid_x) ^ 2 + (inner1.2 - mid_y) ^ 2)
  let mesh_distance := triangular_mesh_distance I O module
  if mesh_distance ^ 2 - dtm ^ 2 < 0 then Except.error sqrtDomainError
  else
    let height := Real.sqrt (mesh_distance ^ 2 - dtm ^ 2)
    let mid_dist := Real.sqrt (mid_x ^ 2 + mid_y ^ 2)
    let dir :=
      if mid_dist > 0 then (mid_x / mid_dist, mid_y / mid_dist)
      else (Real.cos (((i : ℝ) * 60 + 30) * Real.pi / 180),
        Real.sin (((i : ℝ) * 60 + 30) * Real.pi / 180))
    Except.ok (mid_x + dir.1 * height, mid_y + dir.2 * height)

/-- The `for i in range(6)` loop of `calculate_positions`, aborted by the
first raised exception. -/
noncomputable def outer_positions_list (S I O : ℕ) (module : ℝ) :
    List ℕ → Except String (List (ℝ × ℝ))
  | [] => Except.ok []
  | i :: rest =>
    match outer_position S I O module i with
    | Except.error e => Except.error e
    | Except.ok p =>
      match outer_positions_list S I O module rest with
      | Except.error e => Except.error e
      | Except.ok ps => Except.ok (p :: ps)

set_option linter.unusedVariables false in
/-- `tools/calculate_triangular_positions.py`, `calculate_positions`
(lines 10-79), outer-planet positions (`R` is only printed, never used). -/
noncomputable def calculate_positions (S I O R : ℕ) (module : ℝ) :
    Except String (List (ℝ × ℝ)) :=
  outer_positions_list S I O module (List.range 6)

theorem outer_position_24_6_6_0 :
    outer_position 24 6 6 2 0 = Except.error sqrtDomainError := by
  unfold outer_position inner_position triangular_mesh_distance
  have h0 : ((0 : ℕ) : ℝ) * 60 * Real.pi / 180 = 0 := by norm_num
  have h1 : (((0 + 1) % 6 : ℕ) : ℝ) * 60 * Real.pi / 180 = Real.pi / 3 := by
    norm_num
    ring
  simp only [h0, h1, Real.cos_zero, Real.sin_zero, Real.cos_pi_div_three,
    Real.sin_pi_div_three]
  have hsq3 : Real.sqrt 3 ^ 2 = 3 := Real.sq_sqrt (by norm_num)
  have harg : ((24 : ℕ) + (6 : ℕ) : ℝ) * 2 / 2 * 1 -
      (((24 : ℕ) + (6 : ℕ) : ℝ) * 2 / 2 * 1 + ((24 : ℕ) + (6 : ℕ) : ℝ) * 2 / 2 * (1 / 2)) / 2 = 15 / 2 * 1 := by
    norm_num
  have hdtm : Real.sqrt
      ((((24 : ℕ) + (6 : ℕ) : ℝ) * 2 / 2 * 1 -
        (((24 : ℕ) + (6 : ℕ) : ℝ) * 2 / 2 * 1 + ((24 : ℕ) + (6 : ℕ) : ℝ) * 2 / 2 * (1 / 2)) / 2) ^ 2 +
       (((24 : ℕ) + (6 : ℕ) : ℝ) * 2 / 2 * 0 -
        (((24 : ℕ) + (6 : ℕ) : ℝ) * 2 / 2 * 0 + ((24 : ℕ) + (6 : ℕ) : ℝ) * 2 / 2 * (Real.sqrt 3 / 2)) / 2) ^ 2) = 15 := by
    rw [show ((((24 : ℕ) + (6 : ℕ) : ℝ) * 2 / 2 * 1 -
        (((24 : ℕ) + (6 : ℕ) : ℝ) * 2 / 2 * 1 + ((24 : ℕ) + (6 : ℕ) : ℝ) * 2 / 2 * (1 / 2)) / 2) ^ 2 +
       (((24 : ℕ) + (6 : ℕ) : ℝ) * 2 / 2 * 0 -
        (((24 : ℕ) + (6 : ℕ) : ℝ) * 2 / 2 * 0 + ((24 : ℕ) + (6 : ℕ) : ℝ) * 2 / 2 * (Real.sqrt 3 / 2)) / 2) ^ 2) =
        225 / 4 + 225 / 4 * (Real.sqrt 3 ^ 2) by push_cast; ring]
    rw [hsq3]
    rw [show (225 / 4 + 225 / 4 * 3 : ℝ) = 15 ^ 2 by norm_num]
    exact Real.sqrt_sq (by norm_num)
  rw [if_pos]
  rw [hdtm]
  push_cast
  norm_num

/-- C5 counterexample: for `S=24, I=6, O=6` (mesh distance 12 mm, half chord
15 mm — "planets too small to reach each other") the position solver
`calculate_positions` propagates the `math.sqrt` `ValueError` instead of
returning a result value carrying the failure. -/
theorem calculate_positions_raises :
    calculate_positions 24 6 6 48 2 = Except.error sqrtDomainError := by
  unfold calculate_positions
  rw [show List.range 6 = [0, 1, 2, 3, 4, 5] from rfl]
  rw [outer_positions_list, outer_position_24_6_6_0]

/-- C5 (amended): when `mesh_distance ≤ half_base`,
`check_triangular_geometry` in `find_valid_triangular.py` does return a
result tuple `(False, 0, 0, 0, 0)` carrying the failure, but the triangular
position solver `calculate_positions` in `calculate_triangular_positions.py`
raises an uncaught `math.sqrt` domain exception (here: for `S=24, I=6, O=6`),
rather than returning a failure value. -/
theorem triangular_small_planets_behaviour :
    (∀ S I O R : ℕ, ∀ module : ℝ,
      triangular_mesh_distance I O module ≤ triangular_half_base S I module →
        check_triangular_geometry S I O R module = (false, 0, 0, 0, 0)) ∧
    calculate_positions 24 6 6 48 2 = Except.error sqrtDomainError := by
  constructor
  · intro S I O R module h
    unfold check_triangular_geometry
    rw [if_pos h]
  · unfold calculate_positions
    rw [show List.range 6 = [0, 1, 2, 3, 4, 5] from rfl]
    rw [outer_positions_list, outer_position_24_6_6_0]

theorem triangular_small_planets_behaviour_witness :
    (triangular_mesh_distance 6 6 2 ≤ triangular_half_base 24 6 2) ∧
      check_triangular_geometry 24 6 6 48 2 = (false, 0, 0, 0, 0) := by
  have h : triangular_mesh_distance 6 6 2 ≤ triangular_half_base 24 6 2 := by
    unfold triangular_mesh_distance triangular_half_base
    rw [Real.sin_pi_div_six]
    norm_num
  exact ⟨h, triangular_small_planets_behaviour.1 24 6 6 48 2 h⟩

/-! ## Direct-offset placement and mirror solutions
(`tools/find_valid_double_planetary.py` lines 119-159) -/

/-- `tools/find_valid_double_planetary.py` line 124: the law-of-cosines value
`cos(offset) = (inner_orbit² + mesh_distance² - outer_orbit²) /
(2 * inner_orbit * mesh_distance)`. -/
noncomputable def cos_offset (inner_orbit mesh_distance outer_orbit : ℝ) : ℝ :=
  (inner_orbit ^ 2 + mesh_distance ^ 2 - outer_orbit ^ 2) /
    (2 * inner_orbit * mesh_distance)

/-- `tools/find_valid_double_planetary.py` lines 139-146: distance from the
candidate outer-planet center (placed on the ring-mesh orbit at origin angle
`inner_angle + offset`) to the inner planet's center. -/
noncomputable def dist_to_inner (inner_orbit outer_orbit inner_angle offset : ℝ) : ℝ :=
  let ox := outer_orbit * Real.cos ((inner_angle + offset) * Real.pi / 180)
  let oy := outer_orbit * Real.sin ((inner_angle + offset) * Real.pi / 180)
  let ix := inner_orbit * Real.cos (inner_angle * Real.pi / 180)
  let iy := inner_orbit * Real.sin (inner_angle * Real.pi / 180)
  Real.sqrt ((ox - ix) ^ 2 + (oy - iy) ^ 2)

open Classical in
/-- `tools/find_valid_double_planetary.py` lines 132-159: the offsets the
solver records for one inner planet.  When `|cos_offset| ≤ 1` the loop
`for sign in [1, -1]` appends the first offset whose distance check
`|dist_to_inner - mesh_distance| < 0.5` passes and then `break`s. -/
noncomputable def outer_config_offsets (inner_orbit mesh_distance outer_orbit
    inner_angle : ℝ) : List ℝ :=
  if |cos_offset inner_orbit mesh_distance outer_orbit| ≤ 1 then
    let offset_angle :=
      Real.arccos (cos_offset inner_orbit mesh_distance outer_orbit) * 180 / Real.pi
    if |dist_to_inner inner_orbit outer_orbit inner_angle offset_angle -
        mesh_distance| < 0.5 then [offset_angle]
    else if |dist_to_inner inner_orbit outer_orbit inner_angle (-offset_angle) -
        mesh_distance| < 0.5 then [-offset_angle]
    else []
  else []

/-- C3 counterexample: for the script's own configuration `S=24, I=12, O=18,
R=72, module=2` (inner orbit 36 mm, mesh distance 30 mm, ring-mesh orbit
54 mm) at `inner_angle = 0°`, the law-of-cosines angle exists
(`|cos θ| = 1/3 ≤ 1`), yet `outer_configs` records no placement at all —
a fortiori not both mirror solutions `+θ` and `-θ`.  (The distance check
fails for both signs because the code uses the angle subtended at the inner
planet as if it were subtended at the origin.) -/
theorem outer_config_offsets_not_both :
    |cos_offset 36 30 54| ≤ 1 ∧ outer_config_offsets 36 30 54 0 = [] := by
  have hco : cos_offset 36 30 54 = -(1 / 3) := by
    unfold cos_offset
    norm_num
  have habs : |cos_offset 36 30 54| ≤ 1 := by
    rw [hco, abs_le]
    constructor <;> norm_num
  refine ⟨habs, ?_⟩
  unfold outer_config_offsets
  rw [if_pos habs, hco]
  have hpi := Real.pi_pos
  have hrad : Real.arccos (-(1 / 3)) * 180 / Real.pi * Real.pi / 180 =
      Real.arccos (-(1 / 3)) := by
    field_simp
  have hcosv : Real.cos (Real.arccos (-(1 / 3))) = -(1 / 3) :=
    Real.cos_arccos (by norm_num) (by norm_num)
  have hsinv : Real.sin (Real.arccos (-(1 / 3))) = Real.sqrt (8 / 9) := by
    rw [Real.sin_arccos]
    norm_num
  have hs2 : Real.sqrt (8 / 9) ^ 2 = 8 / 9 := Real.sq_sqrt (by norm_num)
  have hdist : ∀ s : ℝ, s = 1 ∨ s = -1 →
      dist_to_inner 36 54 0 (s * (Real.arccos (-(1 / 3)) * 180 / Real.pi)) =
        Real.sqrt 5508 := by
    intro s hs
    unfold dist_to_inner
    dsimp only
    have hang : (0 + s * (Real.arccos (-(1 / 3)) * 180 / Real.pi)) * Real.pi / 180 =
        s * Real.arccos (-(1 / 3)) := by
      field_simp
      ring
    rw [hang]
    have hzero : (0 : ℝ) * Real.pi / 180 = 0 := by norm_num
    rw [hzero, Real.cos_zero, Real.sin_zero]
    rcases hs with hs | hs <;> subst hs
    · rw [one_mul, hcosv, hsinv]
      rw [show (54 * -(1 / 3) - 36 * 1) ^ 2 + (54 * Real.sqrt (8 / 9) - 36 * 0) ^ 2 =
          2916 + 2916 * (Real.sqrt (8 / 9) ^ 2) by ring, hs2]
      norm_num
    · rw [show (-1 : ℝ) * Real.arccos (-(1 / 3)) = -(Real.arccos (-(1 / 3))) by ring,
        Real.cos_neg, Real.sin_neg, hcosv, hsinv]
      rw [show (54 * -(1 / 3) - 36 * 1) ^ 2 + (54 * -Real.sqrt (8 / 9) - 36 * 0) ^ 2 =
          2916 + 2916 * (Real.sqrt (8 / 9) ^ 2) by ring, hs2]
      norm_num
  have hfar : ¬ |Real.sqrt 5508 - 30| < 0.5 := by
    have hgt : (30.5 : ℝ) < Real.sqrt 5508 := (Real.lt_sqrt (by norm_num)).mpr (by norm_num)
    rw [abs_sub_comm, abs_sub_lt_iff]
    push_neg
    intro h
    linarith
  have h1 := hdist 1 (Or.inl rfl)
  have h2 := hdist (-1) (Or.inr rfl)
  rw [one_mul] at h1
  rw [show (-1 : ℝ) * (Real.arccos (-(1 / 3)) * 180 / Real.pi) =
      -(Real.arccos (-(1 / 3)) * 180 / Real.pi) by ring] at h2
  rw [if_neg (by rw [h1]; exact hfar), if_neg (by rw [h2]; exact hfar)]

/-- C3 (amended): for every direct-offset configuration the position solver
records at most one of the two mirror placements per inner planet — the
first of `+θ`, `-θ` that passes the distance check — never both. -/
theorem outer_config_offsets_at_most_one (inner_orbit mesh_distance outer_orbit
    inner_angle : ℝ) :
    (outer_config_offsets inner_orbit mesh_distance outer_orbit inner_angle).length ≤ 1 := by
  unfold outer_config_offsets
  dsimp only
  split_ifs <;> simp

/-! ## Geometric overlap detector (`tools/detect_overlaps.py`) -/

/-- `tools/detect_overlaps.py` lines 15-21: a 2D point of a rendered
outline. -/
structure SvgPoint where
  x : ℝ
  y : ℝ

/-- `tools/detect_overlaps.py` lines 26-30: a straight outline segment
tagged with the id of the gear it belongs to. -/
structure LineSegment where
  p1 : SvgPoint
  p2 : SvgPoint
  gear_id : String

/-- `Point.distance_to` (lines 20-21). -/
noncomputable def point_distance (a b : SvgPoint) : ℝ :=
  Real.sqrt ((a.x - b.x) ^ 2 + (a.y - b.y) ^ 2)

open Classical in
/-- `LineSegment._point_to_segment_distance` (lines 62-78): distance from a
point to a segment via the clamped projection parameter `t`. -/
noncomputable def point_to_segment_distance (point seg_start seg_end : SvgPoint) : ℝ :=
  let dx := seg_end.x - seg_start.x
  let dy := seg_end.y - seg_start.y
  if dx = 0 ∧ dy = 0 then point_distance point seg_start
  else
    let t := max 0 (min 1
      (((point.x - seg_start.x) * dx + (point.y - seg_start.y) * dy) / (dx * dx + dy * dy)))
    point_distance point ⟨seg_start.x + t * dx, seg_start.y + t * dy⟩

open Classical in
/-- `LineSegment.min_distance_to` (lines 47-60): minimum of the four
endpoint-to-opposite-segment distances; `⊤` models Python's `float('inf')`
returned for two segments of the same gear. -/
noncomputable def min_distance_to (s1 s2 : LineSegment) : WithTop ℝ :=
  if s1.gear_id = s2.gear_id then ⊤
  else
    ((min (point_to_segment_distance s2.p1 s1.p1 s1.p2)
      (min (point_to_segment_distance s2.p2 s1.p1 s1.p2)
        (min (point_to_segment_distance s1.p1 s2.p1 s2.p2)
          (point_to_segment_distance s1.p2 s2.p1 s2.p2)))) : ℝ)

/-- `tools/detect_overlaps.py` lines 182-186: the minimum of
`min_distance_to` over all segment pairs of two gears, starting from
`float('inf')`. -/
noncomputable def min_gear_distance (segs1 segs2 : List LineSegment) : WithTop ℝ :=
  ((segs1.map (fun s1 => segs2.map (fun s2 => min_distance_to s1 s2))).flatten).foldl min ⊤

/-- The per-pair classification of `calculate_mesh_quality`. -/
inductive MeshStatus where
  | overlap
  | clearance
deriving DecidableEq

open Classical in
/-- `tools/detect_overlaps.py`, `calculate_mesh_quality` body for one gear
pair (lines 181-193): a metric entry is emitted when the minimum distance is
finite, with status `overlap` iff it is below 0.1 mm and `clearance`
otherwise.  Segment intersection plays no part in this classification. -/
noncomputable def pair_mesh_status (segs1 segs2 : List LineSegment) : Option MeshStatus :=
  let min_dist := min_gear_distance segs1 segs2
  if min_dist < ⊤ then
    some (if min_dist < (((0.1 : ℝ)) : WithTop ℝ) then MeshStatus.overlap
      else MeshStatus.clearance)
  else none

theorem foldl_min_le_init {α : Type} [LinearOrder α] :
    ∀ (l : List α) (a : α), l.foldl min a ≤ a := by
  intro l
  induction l with
  | nil => intro a; exact le_refl a
  | cons y ys ih =>
    intro a
    calc (y :: ys).foldl min a = ys.foldl min (min a y) := rfl
      _ ≤ min a y := ih (min a y)
      _ ≤ a := min_le_left a y

theorem foldl_min_le_mem {α : Type} [LinearOrder α] :
    ∀ (l : List α) (a x : α), x ∈ l → l.foldl min a ≤ x := by
  intro l
  induction l with
  | nil => intro a x hx; exact absurd hx (List.not_mem_nil x)
  | cons y ys ih =>
    intro a x hx
    rcases List.mem_cons.mp hx with h | h
    · subst h
      calc (x :: ys).foldl min a = ys.foldl min (min a x) := rfl
        _ ≤ min a x := foldl_min_le_init ys (min a x)
        _ ≤ x := min_le_right a x
    · exact ih (min a y) x h

/-- C9: for every pair of gears with different ids (each contributing at
least one outline segment), `calculate_mesh_quality` classifies the pair as
`overlap` exactly when the minimum inter-gear distance over all segment pairs
falls below the 0.1 mm epsilon, and as `clearance` in every other case —
independently of whether any segments intersect. -/
theorem pair_mesh_status_iff (segs1 segs2 : List LineSegment) (g1 g2 : String)
    (h1 : ∀ s ∈ segs1, s.gear_id = g1) (h2 : ∀ s ∈ segs2, s.gear_id = g2)
    (hne : g1 ≠ g2) (hn1 : segs1 ≠ []) (hn2 : segs2 ≠ []) :
    (pair_mesh_status segs1 segs2 = some MeshStatus.overlap ↔
      min_gear_distance segs1 segs2 < (((0.1 : ℝ)) : WithTop ℝ)) ∧
    (pair_mesh_status segs1 segs2 = some MeshStatus.clearance ↔
      ¬ min_gear_distance segs1 segs2 < (((0.1 : ℝ)) : WithTop ℝ)) := by
  obtain ⟨s1, rest1, rfl⟩ := List.exists_cons_of_ne_nil hn1
  obtain ⟨s2, rest2, rfl⟩ := List.exists_cons_of_ne_nil hn2
  have hids : s1.gear_id ≠ s2.gear_id := by
    rw [h1 s1 (List.mem_cons_self s1 rest1), h2 s2 (List.mem_cons_self s2 rest2)]
    exact hne
  have hfin : min_distance_to s1 s2 < ⊤ := by
    unfold min_distance_to
    rw [if_neg hids]
    exact WithTop.coe_lt_top _
  have hmem : min_distance_to s1 s2 ∈
      (((s1 :: rest1).map (fun a => (s2 :: rest2).map (fun b => min_distance_to a b))).flatten) := by
    apply List.mem_flatten_of_mem (l := (s2 :: rest2).map (fun b => min_distance_to s1 b))
    · exact List.mem_map_of_mem _ (List.mem_cons_self s1 rest1)
    · exact List.mem_map_of_mem _ (List.mem_cons_self s2 rest2)
  have hlt : min_gear_distance (s1 :: rest1) (s2 :: rest2) < ⊤ :=
    lt_of_le_of_lt (foldl_min_le_mem _ ⊤ _ hmem) hfin
  unfold pair_mesh_status
  rw [if_pos hlt]
  by_cases hd : min_gear_distance (s1 :: rest1) (s2 :: rest2) < (((0.1 : ℝ)) : WithTop ℝ)
  · rw [if_pos hd]
    simp [hd]
  · rw [if_neg hd]
    simp [hd]

theorem pair_mesh_status_iff_witness :
    (∀ s ∈ [LineSegment.mk ⟨0, 0⟩ ⟨0, 0⟩ "a"], s.gear_id = "a") ∧
    (∀ s ∈ [LineSegment.mk ⟨5, 0⟩ ⟨5, 0⟩ "b"], s.gear_id = "b") ∧
    ("a" ≠ "b") ∧
    (([LineSegment.mk ⟨0, 0⟩ ⟨0, 0⟩ "a"] : List LineSegment) ≠ []) ∧
    (([LineSegment.mk ⟨5, 0⟩ ⟨5, 0⟩ "b"] : List LineSegment) ≠ []) ∧
    ((pair_mesh_status [LineSegment.mk ⟨0, 0⟩ ⟨0, 0⟩ "a"]
        [LineSegment.mk ⟨5, 0⟩ ⟨5, 0⟩ "b"] = some MeshStatus.overlap ↔
      min_gear_distance [LineSegment.mk ⟨0, 0⟩ ⟨0, 0⟩ "a"]
        [LineSegment.mk ⟨5, 0⟩ ⟨5, 0⟩ "b"] < (((0.1 : ℝ)) : WithTop ℝ)) ∧
    (pair_mesh_status [LineSegment.mk ⟨0, 0⟩ ⟨0, 0⟩ "a"]
        [LineSegment.mk ⟨5, 0⟩ ⟨5, 0⟩ "b"] = some MeshStatus.clearance ↔
      ¬ min_gear_distance [LineSegment.mk ⟨0, 0⟩ ⟨0, 0⟩ "a"]
        [LineSegment.mk ⟨5, 0⟩ ⟨5, 0⟩ "b"] < (((0.1 : ℝ)) : WithTop ℝ))) :=
  ⟨by simp, by simp, by simp, by simp, by simp,
    pair_mesh_status_iff [LineSegment.mk ⟨0, 0⟩ ⟨0, 0⟩ "a"]
      [LineSegment.mk ⟨5, 0⟩ ⟨5, 0⟩ "b"] "a" "b"
      (by simp) (by simp) (by simp) (by simp) (by simp)⟩

/-! ## Gear-system validator (`tools/validate_gear_system.py`) -/

/-- `tools/validate_gear_system.py` lines 49-50: the assembly value
`(S + R) / n` is an integer (`assembly_value == int(assembly_value)`;
the quotient is nonnegative, so truncation equals the floor). -/
noncomputable def assembly_is_integer (S R n : ℕ) : Prop :=
  ((S : ℝ) + (R : ℝ)) / (n : ℝ) = (⌊((S : ℝ) + (R : ℝ)) / (n : ℝ)⌋ : ℝ)

/-- `tools/validate_gear_system.py` line 99: distance between adjacent inner
planets, `2 * inner_orbit * sin(radians((360/n)/2))`. -/
noncomputable def inner_neighbor_dist (S I n : ℕ) (module : ℝ) : ℝ :=
  2 * ((S : ℝ) * module / 2 + (I : ℝ) * module / 2) *
    Real.sin (360 / (n : ℝ) / 2 * Real.pi / 180)

/-- `tools/validate_gear_system.py` line 100: `2 * (inner_r + module)`. -/
noncomputable def min_safe_inner (I : ℕ) (module : ℝ) : ℝ :=
  2 * ((I : ℝ) * module / 2 + module)

/-- `tools/validate_gear_system.py` line 109: distance between adjacent outer
planets on the orbit `ring_r - outer_r`. -/
noncomputable def outer_neighbor_dist (O R n : ℕ) (module : ℝ) : ℝ :=
  2 * ((R : ℝ) * module / 2 - (O : ℝ) * module / 2) *
    Real.sin (360 / (n : ℝ) / 2 * Real.pi / 180)

/-- `tools/validate_gear_system.py` line 110: `2 * (outer_r + module)`. -/
noncomputable def min_safe_outer (O : ℕ) (module : ℝ) : ℝ :=
  2 * ((O : ℝ) * module / 2 + module)

/-- `tools/validate_gear_system.py` lines 80-91: the printed-only check that
the inner planet at 0° and the outer planet at 30° are a mesh distance apart
within 0.1 mm. -/
noncomputable def mesh_point_check (S I O R : ℕ) (module : ℝ) : Prop :=
  let inner_orbit := (S : ℝ) * module / 2 + (I : ℝ) * module / 2
  let outer_orbit := (R : ℝ) * module / 2 - (O : ℝ) * module / 2
  let distance := Real.sqrt
    ((outer_orbit * Real.cos ((30 : ℝ) * Real.pi / 180) - inner_orbit) ^ 2 +
      (outer_orbit * Real.sin ((30 : ℝ) * Real.pi / 180) - 0) ^ 2)
  |distance - ((I : ℝ) * module / 2 + (O : ℝ) * module / 2)| < 0.1

/-- `tools/validate_gear_system.py`, `validate_planetary_gear_system` return
value (line 121): `is_integer and inner_neighbor_dist > min_safe_inner and
outer_neighbor_dist > min_safe_outer`. -/
noncomputable def validate_planetary_gear_system (S I O R n : ℕ) (module : ℝ) : Prop :=
  assembly_is_integer S R n ∧
    inner_neighbor_dist S I n module > min_safe_inner I module ∧
    outer_neighbor_dist O R n module > min_safe_outer O module

theorem assembly_is_integer_iff_dvd (S R n : ℕ) (hn : 0 < n) :
    assembly_is_integer S R n ↔ n ∣ (S + R) := by
  have hnR : ((n : ℝ)) ≠ 0 := Nat.cast_ne_zero.mpr hn.ne'
  unfold assembly_is_integer
  constructor
  · intro h
    have hx0 : (0 : ℝ) ≤ ((S : ℝ) + (R : ℝ)) / (n : ℝ) := by positivity
    have hk0 : 0 ≤ ⌊((S : ℝ) + (R : ℝ)) / (n : ℝ)⌋ := Int.floor_nonneg.mpr hx0
    set k := ⌊((S : ℝ) + (R : ℝ)) / (n : ℝ)⌋ with hk
    have heq : ((S : ℝ) + (R : ℝ)) = (n : ℝ) * (k : ℝ) := by
      field_simp at h
      linarith
    lift k to ℕ using hk0 with k'
    have hcast : ((S + R : ℕ) : ℝ) = ((n * k' : ℕ) : ℝ) := by
      push_cast
      push_cast at heq
      linarith
    exact ⟨k', Nat.cast_injective hcast⟩
  · rintro ⟨q, hq⟩
    have hval : ((S : ℝ) + (R : ℝ)) / (n : ℝ) = ((q : ℤ) : ℝ) := by
      have : ((S : ℝ) + (R : ℝ)) = ((S + R : ℕ) : ℝ) := by push_cast; ring
      rw [this, hq]
      push_cast
      field_simp
    rw [hval, Int.floor_intCast]

/-- C10: the validator's overall verdict is true exactly when `(S+R)/n` is an
integer (equivalently `n` divides `S+R`) and both neighbor-distance
inequalities hold; and for the `S=24, I=12, O=18, R=72, n=6` system the
verdict is true even though the printed inner-at-0°/outer-at-30° mesh-point
distance check fails — the verdict does not depend on that check. -/
theorem validate_verdict :
    (∀ S I O R n : ℕ, ∀ module : ℝ, 0 < n →
      (validate_planetary_gear_system S I O R n module ↔
        (n ∣ (S + R) ∧
          inner_neighbor_dist S I n module > min_safe_inner I module ∧
          outer_neighbor_dist O R n module > min_safe_outer O module))) ∧
    (validate_planetary_gear_system 24 12 18 72 6 2 ∧
      ¬ mesh_point_check 24 12 18 72 2) := by
  have hang6 : 360 / ((6 : ℕ) : ℝ) / 2 * Real.pi / 180 = Real.pi / 6 := by
    push_cast
    ring
  refine ⟨?_, ⟨?_, ?_, ?_⟩, ?_⟩
  · intro S I O R n module hn
    unfold validate_planetary_gear_system
    rw [assembly_is_integer_iff_dvd S R n hn]
  · rw [assembly_is_integer_iff_dvd 24 72 6 (by norm_num)]
    norm_num
  · unfold inner_neighbor_dist min_safe_inner
    rw [hang6, Real.sin_pi_div_six]
    norm_num
  · unfold outer_neighbor_dist min_safe_outer
    rw [hang6, Real.sin_pi_div_six]
    norm_num
  · unfold mesh_point_check
    dsimp only
    have h30 : (30 : ℝ) * Real.pi / 180 = Real.pi / 6 := by ring
    rw [h30, Real.cos_pi_div_six, Real.sin_pi_div_six]
    have hs3 : Real.sqrt 3 ^ 2 = 3 := Real.sq_sqrt (by norm_num)
    have hs3lb : (1.732 : ℝ) < Real.sqrt 3 := (Real.lt_sqrt (by norm_num)).mpr (by norm_num)
    have hinside : ((((72 : ℕ) : ℝ) * 2 / 2 - ((18 : ℕ) : ℝ) * 2 / 2) * (Real.sqrt 3 / 2) -
          (((24 : ℕ) : ℝ) * 2 / 2 + ((12 : ℕ) : ℝ) * 2 / 2)) ^ 2 +
        ((((72 : ℕ) : ℝ) * 2 / 2 - ((18 : ℕ) : ℝ) * 2 / 2) * (1 / 2) - 0) ^ 2 =
        4212 - 1944 * Real.sqrt 3 := by
      push_cast
      linear_combination (729 : ℝ) * hs3
    rw [hinside]
    have hlt : Real.sqrt (4212 - 1944 * Real.sqrt 3) < 29.1 := by
      rw [show (29.1 : ℝ) = Real.sqrt (29.1 ^ 2) from (Real.sqrt_sq (by norm_num)).symm]
      apply Real.sqrt_lt_sqrt
      · nlinarith [Real.sqrt_nonneg 3]
      · nlinarith
    push_cast
    rw [abs_sub_lt_iff]
    push_neg
    intro hcontr
    linarith

theorem validate_verdict_witness :
    0 < 6 ∧
      (validate_planetary_gear_system 24 12 18 72 6 2 ↔
        (6 ∣ (24 + 72) ∧
          inner_neighbor_dist 24 12 6 2 > min_safe_inner 12 2 ∧
          outer_neighbor_dist 18 72 6 2 > min_safe_outer 18 2)) :=
  ⟨by norm_num, validate_verdict.1 24 12 18 72 6 2 (by norm_num)⟩

end GearSpec
